import Mathlib

/-!
Shallow embedding of the mtmove download/upload pipeline (src/utils.py,
src/download_manager.py, src/file_manager.py, src/config.py).

Modelling conventions: Python strings are lists of characters; timestamps are
integers (seconds); the file system is an association list from paths to byte
sizes; outcomes of external effects (HTTP responses, subprocesses, the
messaging API, the extraction library) are explicit parameters or small
outcome types; fallible code is translated with every catch-all handler made
explicit, so each translated function is total and its return value is what
the Python function hands back to its caller.
-/

namespace MTMove

/-- Text is modelled as a list of characters. -/
abbrev Str := List Char

/-- Boolean substring test: Python `pat in hay`. True iff pat occurs
contiguously inside hay. -/
def contains_sub (hay pat : Str) : Bool :=
  match hay with
  | [] => pat.isEmpty
  | _ :: t => pat.isPrefixOf hay || contains_sub t pat

/-- File system model: association list from path to file size in bytes. -/
abbrev FS := List (Str × Nat)

/-- Test whether a path exists in the file system (os.path.exists). -/
def fs_exists (fs : FS) (p : Str) : Bool :=
  fs.any (fun e => e.1 == p)

/-- Size of the file at a path (os.path.getsize); 0 when absent. -/
def fs_size (fs : FS) (p : Str) : Nat :=
  ((fs.find? (fun e => e.1 == p)).map Prod.snd).getD 0

/-- Remove a path from the file system (os.remove). -/
def fs_remove (fs : FS) (p : Str) : FS :=
  fs.filter (fun e => !(e.1 == p))

/-- Create or overwrite a file at a path with the given size. -/
def fs_add (fs : FS) (p : Str) (n : Nat) : FS :=
  (p, n) :: fs_remove fs p

namespace Utils

/-- Recognized video extensions, from Utils.is_video_file in src/utils.py. -/
def video_extensions : List Str :=
  [(".mp4").toList, (".mkv").toList, (".avi").toList, (".mov").toList,
   (".wmv").toList, (".flv").toList, (".webm").toList]

/-- Suffix of a path in the sense of Python pathlib: the extension of the
final path component, starting at its last dot, empty when the final
component has no dot, starts with its only dot, or ends with the dot. -/
def path_suffix (p : Str) : Str :=
  let name := (p.reverse.takeWhile (fun c => !(c == '/'))).reverse
  let ext := (name.reverse.takeWhile (fun c => !(c == '.'))).reverse
  if ext ≠ [] ∧ ext.length + 1 < name.length then '.' :: ext else []

/-- Embeds Utils.is_video_file from src/utils.py: the lowercased pathlib
suffix of the path must be one of the recognized video extensions. -/
def is_video_file (p : Str) : Bool :=
  video_extensions.contains ((path_suffix p).map Char.toLower)

/-- Embeds Utils.safe_delete_file from src/utils.py: when the path exists it
is removed and True is returned; otherwise (and on any caught deletion
error) False is returned and the file system is unchanged. Every exception
is caught inside the function, so the caller always receives a plain
boolean. -/
def safe_delete_file (fs : FS) (p : Str) : Bool × FS :=
  if fs_exists fs p then (true, fs_remove fs p) else (false, fs)

/-- Embeds Utils.generate_deeplink from src/utils.py:
f"https://t.me/\x7bbot_username\x7d?start=v_\x7bunique_code\x7d". -/
def generate_deeplink (uniqueCode botUsername : Str) : Str :=
  ("https://t.me/").toList ++ botUsername ++ ("?start=v_").toList ++ uniqueCode

/-- Embeds Utils.parse_deeplink from src/utils.py: when the start parameter
is non-empty and starts with v_, the prefix of two characters is stripped;
otherwise None. -/
def parse_deeplink (startParam : Str) : Option Str :=
  if !startParam.isEmpty && ("v_").toList.isPrefixOf startParam then
    some (startParam.drop 2)
  else
    none

end Utils

namespace RateLimiter

/-- Embeds the per-identity body of RateLimiter.is_allowed from src/utils.py:
prune the stored timestamps to those strictly newer than now minus the
window, deny when the pruned count has reached max_requests, otherwise
append the current timestamp and admit. Returns the decision and the new
stored timestamp list for the identity. -/
def is_allowed (userRequests : List Int) (now : Int)
    (maxRequests windowSeconds : Nat) : Bool × List Int :=
  let windowStart := now - (windowSeconds : Int)
  let pruned := userRequests.filter (fun t => windowStart < t)
  if maxRequests ≤ pruned.length then (false, pruned)
  else (true, pruned ++ [now])

/-- Runs a sequence of is_allowed calls for one identity, at the given call
times, starting from an empty timestamp list; returns the decisions in order
together with the final stored list. -/
def run_calls (times : List Int) (maxRequests windowSeconds : Nat) :
    List Bool × List Int :=
  times.foldl
    (fun acc t =>
      let r := is_allowed acc.2 t maxRequests windowSeconds
      (acc.1 ++ [r.1], r.2))
    ([], [])

/-- Call times for the documented scenario: ten calls in the first ten
seconds, an eleventh call still inside the 60 second window, and a final
call after the window has elapsed. -/
def scenario_times : List Int :=
  [0, 1, 2, 3, 4, 5, 6, 7, 8, 9, 10, 70]

end RateLimiter

namespace DownloadManager

/-- Maximum retry count of DownloadManager.__init__ in
src/download_manager.py. -/
def max_retries : Nat := 3

/-- Retry delay in seconds of DownloadManager.__init__ in
src/download_manager.py. -/
def retry_delay : Nat := 5

/-- Recognized video extensions from DownloadManager._is_direct_video_url. -/
def video_extensions : List Str :=
  [(".mp4").toList, (".mkv").toList, (".avi").toList, (".mov").toList,
   (".wmv").toList, (".flv").toList, (".webm").toList]

/-- Platform domains from DownloadManager._is_youtube_url. -/
def youtube_domains : List Str :=
  [("youtube.com").toList, ("youtu.be").toList,
   ("youtube-nocookie.com").toList, ("m.youtube.com").toList,
   ("music.youtube.com").toList]

/-- Lowercase a URL, as url.lower() does in the source. -/
def url_lower (url : Str) : Str := url.map Char.toLower

/-- Embeds DownloadManager._is_youtube_url: any of the platform domains
occurs as a substring of the lowercased URL. -/
def is_youtube_url (url : Str) : Bool :=
  youtube_domains.any (fun d => contains_sub (url_lower url) d)

/-- Embeds DownloadManager._is_direct_video_url: any recognized video
extension occurs as a substring of the lowercased URL. -/
def is_direct_video_url (url : Str) : Bool :=
  video_extensions.any (fun e => contains_sub (url_lower url) e)

/-- Download strategies selected by DownloadManager.download_video. -/
inductive Strategy
  | ytdlp
  | direct
deriving DecidableEq

/-- Embeds the dispatch of DownloadManager.download_video, lines 94 to 100:
platform URLs go to the extractor, then direct video URLs go to the direct
stream path, and everything else falls back to the extractor. -/
def select_strategy (url : Str) : Strategy :=
  if is_youtube_url url then .ytdlp
  else if is_direct_video_url url then .direct
  else .ytdlp

/-- Claim-side definition following the spec wording, for comparison with
is_direct_video_url: the URL path (approximated as the URL text before the
first question mark or hash) must end with a recognized video extension. -/
def url_before_query (url : Str) : Str :=
  url.takeWhile (fun c => !(c == '?') && !(c == '#'))

/-- Claim-side definition following the spec wording: direct-stream is used
exactly when the URL path ends with a recognized video file extension. -/
def claim_is_direct (url : Str) : Bool :=
  video_extensions.any (fun e => e.isSuffixOf (url_lower (url_before_query url)))

/-- Outcome of one direct-download attempt as observed by the code of
DownloadManager._download_direct: a 200 response small enough to stream to
disk, a non-200 response, a 200 response whose declared content length
exceeds the configured maximum, or a transient network error
(aiohttp.ClientError or asyncio.TimeoutError). -/
inductive AttemptOutcome
  | ok
  | badStatus
  | oversize
  | netError
deriving DecidableEq

/-- Observable result of a run of DownloadManager._download_direct: the
value returned to the caller, the number of attempts started, and the list
of sleep durations performed between attempts, in order. -/
structure DirectResult where
  result : Option Str
  attemptsMade : Nat
  sleeps : List Nat
deriving DecidableEq

/-- Embeds the retry loop of DownloadManager._download_direct, lines 289 to
333. Each iteration first sleeps retry_delay when it is not the first
attempt. A transient error on the last attempt is re-raised and caught by
the outer handler, which returns None; a transient error earlier continues
the loop; a non-200 status continues the loop; an oversize declared length
returns None at once; success returns the file path. The fuel argument is
the number of loop iterations left, max_retries at the start. -/
def download_direct_go (outcomes : Nat → AttemptOutcome) (filepath : Str)
    (attempt fuel : Nat) (sleeps : List Nat) : DirectResult :=
  match fuel with
  | 0 => ⟨none, attempt, sleeps⟩
  | fuel' + 1 =>
    let sleeps' := if 0 < attempt then sleeps ++ [retry_delay] else sleeps
    match outcomes attempt with
    | .ok => ⟨some filepath, attempt + 1, sleeps'⟩
    | .oversize => ⟨none, attempt + 1, sleeps'⟩
    | .badStatus => download_direct_go outcomes filepath (attempt + 1) fuel' sleeps'
    | .netError =>
      if attempt = max_retries - 1 then ⟨none, attempt + 1, sleeps'⟩
      else download_direct_go outcomes filepath (attempt + 1) fuel' sleeps'

/-- Embeds DownloadManager._download_direct: run the retry loop from the
first attempt with max_retries iterations of fuel and no sleeps yet. -/
def download_direct (outcomes : Nat → AttemptOutcome) (filepath : Str) :
    DirectResult :=
  download_direct_go outcomes filepath 0 max_retries []

/-- Claim-side definition following the spec wording: sleeps of a linear
backoff with multiplier equal to the attempt index, for n attempts with the
given base delay. -/
def linear_backoff_sleeps (n delay : Nat) : List Nat :=
  (List.range (n - 1)).map (fun i => delay * (i + 1))

/-- State of the download admission semaphore: the number of download_video
calls waiting to enter, and the number currently inside the semaphore (the
jobs registered in active_downloads, i.e. in an active downloading state). -/
structure SemState where
  waiting : Nat
  active : Nat
deriving DecidableEq

/-- Modelled from the spec: asyncio.Semaphore(3) semantics, the library
primitive used by DownloadManager.__init__ and download_video, is not part
of src/. A new call may always arrive and wait; a waiting call enters only
while fewer than 3 holders are active (otherwise it keeps waiting, it never
fails); a holder leaving frees its slot. -/
inductive SemStep : SemState → SemState → Prop
  | submit (s : SemState) : SemStep s ⟨s.waiting + 1, s.active⟩
  | acquire (s : SemState) (hw : 0 < s.waiting) (ha : s.active < 3) :
      SemStep s ⟨s.waiting - 1, s.active + 1⟩
  | release (s : SemState) (ha : 0 < s.active) : SemStep s ⟨s.waiting, s.active - 1⟩

/-- States reachable from the initial state with no waiting and no active
downloads. -/
inductive SemReachable : SemState → Prop
  | init : SemReachable ⟨0, 0⟩
  | step {s t : SemState} : SemReachable s → SemStep s t → SemReachable t

/-- Format alternatives occurring in the format strings of
DownloadManager._get_ytdlp_format: best[height<=h], best, and worst,
composed with the / fallback operator (modelled as list order). -/
inductive FormatAlt
  | bestAtMost (h : Nat)
  | best
  | worst
deriving DecidableEq

/-- Embeds the quality_map of DownloadManager._get_ytdlp_format, each string
transliterated alternative by alternative:
480p is best[height<=480]/worst;
720p is best[height<=720]/best[height<=1080]/worst;
1080p is best[height<=1080]/best;
1440p is best[height<=1440]/best;
4k is best[height<=2160]/best;
any other quality gets the default best[height<=720]/worst. -/
def get_ytdlp_format (quality : String) : List FormatAlt :=
  if quality = "480p" then [.bestAtMost 480, .worst]
  else if quality = "720p" then [.bestAtMost 720, .bestAtMost 1080, .worst]
  else if quality = "1080p" then [.bestAtMost 1080, .best]
  else if quality = "1440p" then [.bestAtMost 1440, .best]
  else if quality = "4k" then [.bestAtMost 2160, .best]
  else [.bestAtMost 720, .worst]

/-- Modelled from the spec: the format selection of the extraction library
(yt-dlp), which is not part of src/, applied to the available encoding
heights. best[height<=h] picks the best encoding of height at most h, best
picks the highest, worst picks the lowest; an alternative that matches
nothing falls through to the next one. -/
def selectAlt (heights : List Nat) : FormatAlt → Option Nat
  | .bestAtMost h => (heights.filter (fun x => x ≤ h)).max?
  | .best => heights.max?
  | .worst => heights.min?

/-- Modelled from the spec: fallback composition of format alternatives, the
/ operator of the extraction library. The first alternative that selects an
encoding wins. -/
def select_format (alts : List FormatAlt) (heights : List Nat) : Option Nat :=
  match alts with
  | [] => none
  | a :: rest =>
    match selectAlt heights a with
    | some h => some h
    | none => select_format rest heights

/-- Best available height at or below the bound. -/
def best_at_most (heights : List Nat) (bound : Nat) : Option Nat :=
  (heights.filter (fun x => x ≤ bound)).max?

/-- Lowest available height. -/
def lowest (heights : List Nat) : Option Nat := heights.min?

/-- Highest available height. -/
def highest (heights : List Nat) : Option Nat := heights.max?

/-- Claim-side definition following the spec wording: pick the best encoding
at or below the requested tier height, and when none qualifies fall back to
the lowest available encoding. -/
def claim_select (tierHeight : Nat) (heights : List Nat) : Option Nat :=
  match best_at_most heights tierHeight with
  | some h => some h
  | none => lowest heights

end DownloadManager

namespace FileManager

/-- Maximum upload retry count of FileManager.__init__ in
src/file_manager.py. -/
def max_retries : Nat := 3

/-- Upload retry base delay in seconds of FileManager.__init__ in
src/file_manager.py. -/
def retry_delay : Nat := 2

/-- Size threshold of upload_to_telegram above which the file is sent as a
document instead of a video: 50 MB. -/
def upload_size_threshold : Nat := 50 * 1024 * 1024

/-- Outcome of one send attempt as observed by the code of
FileManager.upload_to_telegram: a message with an id, a falsy message, a
transient network error (telegram NetworkError or TimedOut), or any other
exception. -/
inductive SendOutcome
  | ok (messageId : Nat)
  | noMessage
  | netError
  | otherError
deriving DecidableEq

/-- Observable result of a run of FileManager.upload_to_telegram: the value
returned to the caller, the final file system, whether thumbnail generation
was invoked, the number of send attempts performed, per attempt whether a
thumbnail file was attached to the send, and the sleep durations between
attempts. -/
structure UploadRun where
  result : Option Nat
  fs : FS
  thumbGenerated : Bool
  networkCalls : Nat
  thumbAttached : List Bool
  sleeps : List Nat
deriving DecidableEq

/-- Thumbnail attachment check of _upload_as_video and _upload_as_document:
the thumbnail is attached only when a thumbnail path is set and the file
still exists (if thumbnail_path and os.path.exists(thumbnail_path)). -/
def thumb_attached_now (fs : FS) (thumbPath : Option Str) : Bool :=
  match thumbPath with
  | some p => fs_exists fs p
  | none => false

/-- Per-attempt cleanup in the finally block of upload_to_telegram: when a
thumbnail path is set, Utils.safe_delete_file is applied to it. -/
def delete_thumb (fs : FS) (thumbPath : Option Str) : FS :=
  match thumbPath with
  | some p => (Utils.safe_delete_file fs p).2
  | none => fs

/-- Embeds the retry loop of FileManager.upload_to_telegram, lines 60 to 91.
Each iteration sends once; the finally block deletes the thumbnail file on
every path out of the iteration. A message with an id returns it; a falsy
message falls through to the next iteration without sleeping; a transient
network error before the last attempt sleeps retry_delay times the attempt
number and retries, and on the last attempt falls out of the loop; any
other exception breaks out of the loop. When the loop ends without a
returned message the function returns None. -/
def upload_attempts (outcomes : Nat → SendOutcome) (thumbPath : Option Str)
    (fs : FS) (attempt fuel calls : Nat) (attached : List Bool)
    (sleeps : List Nat) (thumbGen : Bool) : UploadRun :=
  match fuel with
  | 0 => ⟨none, fs, thumbGen, calls, attached, sleeps⟩
  | fuel' + 1 =>
    let att := thumb_attached_now fs thumbPath
    let attached' := attached ++ [att]
    let calls' := calls + 1
    let fs' := delete_thumb fs thumbPath
    match outcomes attempt with
    | .ok mid => ⟨some mid, fs', thumbGen, calls', attached', sleeps⟩
    | .noMessage =>
      upload_attempts outcomes thumbPath fs' (attempt + 1) fuel' calls' attached' sleeps thumbGen
    | .netError =>
      if attempt < max_retries - 1 then
        upload_attempts outcomes thumbPath fs' (attempt + 1) fuel' calls' attached'
          (sleeps ++ [retry_delay * (attempt + 1)]) thumbGen
      else ⟨none, fs', thumbGen, calls', attached', sleeps⟩
    | .otherError => ⟨none, fs', thumbGen, calls', attached', sleeps⟩

/-- Embeds FileManager.upload_to_telegram, lines 36 to 92. The checks run in
source order: a missing file, then a file larger than the configured
maximum, then an empty file each return None at once, before thumbnail
generation and before any send attempt. Then, for recognized video files
only, thumbnail generation is invoked; the thumbGen parameter is its
outcome (the created thumbnail path, or None on failure), and a created
thumbnail is added to the file system. Finally the retry loop runs with
max_retries iterations of fuel. -/
def upload_to_telegram (fs : FS) (filePath : Str) (maxFileSize : Nat)
    (thumbGen : Option Str) (outcomes : Nat → SendOutcome) : UploadRun :=
  if !fs_exists fs filePath then ⟨none, fs, false, 0, [], []⟩
  else
    let fileSize := fs_size fs filePath
    if maxFileSize < fileSize then ⟨none, fs, false, 0, [], []⟩
    else if fileSize = 0 then ⟨none, fs, false, 0, [], []⟩
    else
      let gen := Utils.is_video_file filePath
      let tfs : Option Str × FS :=
        if gen then
          match thumbGen with
          | some p => (some p, fs_add fs p 1)
          | none => (none, fs)
        else (none, fs)
      upload_attempts outcomes tfs.1 tfs.2 0 max_retries 0 [] [] gen

/-- Embeds FileManager._get_duration_ffmpeg: the probe parameter is the
outcome of running ffprobe and parsing its output (error covers a missing
tool, a non-zero exit, and an unparseable duration, all caught by the
bare handler); on error the function returns 0. -/
def get_duration_ffmpeg (probe : Except Unit Int) : Int :=
  match probe with
  | .ok d => d
  | .error _ => 0

/-- Embeds FileManager._get_duration_opencv: the decode parameter is the
outcome of opening the video (error models a raised exception, ok none a
capture that did not open, ok some the frame rate and frame count); a
closed capture or an exception yields 0, a zero frame rate yields 0, and
otherwise the frame count divided by the frame rate is returned. -/
def get_duration_opencv (decode : Except Unit (Option (Nat × Nat))) : Int :=
  match decode with
  | .error _ => 0
  | .ok none => 0
  | .ok (some (fps, frames)) => if 0 < fps then (frames / fps : Nat) else 0

/-- Embeds FileManager.get_video_duration: the ffprobe path is tried first
and its value returned when positive, otherwise the in-process decode path
is used; the surrounding catch-all returns 0, so the caller always receives
a plain integer and never an exception. -/
def get_video_duration (probe : Except Unit Int)
    (decode : Except Unit (Option (Nat × Nat))) : Int :=
  let d := get_duration_ffmpeg probe
  if 0 < d then d else get_duration_opencv decode

/-- Embeds FileManager.get_video_dimensions: the decode parameter is the
outcome of opening the video (error models a raised exception, ok none a
capture that did not open, ok some the width and height); a closed capture
or an exception yields (0, 0), so the caller always receives a plain pair
and never an exception. -/
def get_video_dimensions (decode : Except Unit (Option (Nat × Nat))) :
    Nat × Nat :=
  match decode with
  | .error _ => (0, 0)
  | .ok none => (0, 0)
  | .ok (some (w, h)) => (w, h)

end FileManager

/-! Helper lemmas shared by the claim theorems. -/

/-- Removing a path from the file system makes it absent. -/
theorem fs_exists_remove (fs : FS) (p : Str) :
    fs_exists (fs_remove fs p) p = false := by
  induction fs with
  | nil => rfl
  | cons e t ih =>
    cases he : (e.1 == p) <;>
      simp_all [fs_exists, fs_remove, List.filter_cons, he]

/-- After safe_delete_file the path is absent, whether or not it existed. -/
theorem fs_exists_safe_delete (fs : FS) (p : Str) :
    fs_exists (Utils.safe_delete_file fs p).2 p = false := by
  unfold Utils.safe_delete_file
  cases h : fs_exists fs p <;> simp [h, fs_exists_remove]

/-- A freshly created file exists. -/
theorem fs_exists_add (fs : FS) (p : Str) (n : Nat) :
    fs_exists (fs_add fs p n) p = true := by
  simp [fs_add, fs_exists]

/-- Per-attempt cleanup with a set thumbnail path leaves the thumbnail
absent. -/
theorem fs_exists_delete_thumb (fs : FS) (p : Str) :
    fs_exists (FileManager.delete_thumb fs (some p)) p = false :=
  fs_exists_safe_delete fs p

/-- Every exit of the upload retry loop leaves the thumbnail file absent,
provided it is already absent or at least one iteration remains. -/
theorem upload_attempts_fs_no_thumb (outcomes : Nat → FileManager.SendOutcome)
    (p : Str) :
    ∀ fuel fs attempt calls attached sleeps thumbGen,
      (fs_exists fs p = false ∨ 1 ≤ fuel) →
      fs_exists (FileManager.upload_attempts outcomes (some p) fs attempt fuel
        calls attached sleeps thumbGen).fs p = false := by
  intro fuel
  induction fuel with
  | zero =>
    intro fs attempt calls attached sleeps tg h
    rcases h with h | h
    · simpa [FileManager.upload_attempts] using h
    · omega
  | succ f ih =>
    intro fs attempt calls attached sleeps tg _
    have hdel := fs_exists_delete_thumb fs p
    cases ho : outcomes attempt with
    | ok mid => simpa [FileManager.upload_attempts, ho] using hdel
    | noMessage =>
      simpa [FileManager.upload_attempts, ho] using
        ih _ _ _ _ _ _ (Or.inl hdel)
    | netError =>
      by_cases hlt : attempt < FileManager.max_retries - 1
      · simpa [FileManager.upload_attempts, ho, hlt] using
          ih _ _ _ _ _ _ (Or.inl hdel)
      · simpa [FileManager.upload_attempts, ho, hlt] using hdel
    | otherError => simpa [FileManager.upload_attempts, ho] using hdel

/-- When the thumbnail file is absent at loop entry, every attempt the loop
still performs is transmitted without a thumbnail: the attachment list grows
only by false entries, and by at least one entry when fuel remains. -/
theorem upload_attempts_attached_false (outcomes : Nat → FileManager.SendOutcome)
    (p : Str) :
    ∀ fuel fs attempt calls attached sleeps thumbGen,
      fs_exists fs p = false →
      ∃ rest,
        (FileManager.upload_attempts outcomes (some p) fs attempt fuel calls
          attached sleeps thumbGen).thumbAttached = attached ++ rest
        ∧ rest.all (fun b => !b) = true
        ∧ (1 ≤ fuel → 1 ≤ rest.length) := by
  intro fuel
  induction fuel with
  | zero =>
    intro fs attempt calls attached sleeps tg _
    exact ⟨[], by simp [FileManager.upload_attempts], rfl, by omega⟩
  | succ f ih =>
    intro fs attempt calls attached sleeps tg habs
    have hatt : FileManager.thumb_attached_now fs (some p) = false := habs
    have hdel := fs_exists_delete_thumb fs p
    cases ho : outcomes attempt with
    | ok mid =>
      exact ⟨[false], by simp [FileManager.upload_attempts, ho, hatt], rfl, by simp⟩
    | noMessage =>
      obtain ⟨rest, hr, hall, _⟩ :=
        ih (FileManager.delete_thumb fs (some p)) (attempt + 1) (calls + 1)
          (attached ++ [false]) sleeps tg hdel
      refine ⟨false :: rest, ?_, ?_, ?_⟩
      · simpa [FileManager.upload_attempts, ho, hatt] using hr
      · simpa using hall
      · simp
    | netError =>
      by_cases hlt : attempt < FileManager.max_retries - 1
      · obtain ⟨rest, hr, hall, _⟩ :=
          ih (FileManager.delete_thumb fs (some p)) (attempt + 1) (calls + 1)
            (attached ++ [false])
            (sleeps ++ [FileManager.retry_delay * (attempt + 1)]) tg hdel
        refine ⟨false :: rest, ?_, ?_, ?_⟩
        · simpa [FileManager.upload_attempts, ho, hatt, hlt] using hr
        · simpa using hall
        · simp
      · exact ⟨[false], by simp [FileManager.upload_attempts, ho, hatt, hlt], rfl, by simp⟩
    | otherError =>
      exact ⟨[false], by simp [FileManager.upload_attempts, ho, hatt], rfl, by simp⟩

/-- Under the upload preconditions, a video upload with a generated
thumbnail reduces to the retry loop started on the file system holding the
fresh thumbnail. -/
theorem upload_to_telegram_video_eq (fs : FS) (filePath p : Str)
    (maxFileSize : Nat) (outcomes : Nat → FileManager.SendOutcome)
    (hEx : fs_exists fs filePath = true)
    (hSize : fs_size fs filePath ≤ maxFileSize)
    (hNz : fs_size fs filePath ≠ 0)
    (hVid : Utils.is_video_file filePath = true) :
    FileManager.upload_to_telegram fs filePath maxFileSize (some p) outcomes
      = FileManager.upload_attempts outcomes (some p) (fs_add fs p 1) 0
          FileManager.max_retries 0 [] [] true := by
  simp [FileManager.upload_to_telegram, hEx, hVid, Nat.not_lt.mpr hSize, hNz]

/-! Claim theorems. -/

/-- C1 counterexample: on a direct download whose three attempts all fail
with a transient network error, the code sleeps the constant retry_delay
before each retry ([5, 5]); the sleeps claimed by the spec, a linear backoff
with multiplier equal to the attempt index, would be [5, 10], which the code
does not perform. -/
theorem download_direct_backoff_counterexample :
    (DownloadManager.download_direct (fun _ => .netError) (("f.mp4").toList)).sleeps
      = [5, 5]
  ∧ DownloadManager.linear_backoff_sleeps 3 5 = [5, 10]
  ∧ (DownloadManager.download_direct (fun _ => .netError) (("f.mp4").toList)).sleeps
      ≠ DownloadManager.linear_backoff_sleeps 3 5 := by
  decide

/-- C1 amended: a direct-stream download whose every attempt fails with a
transient network error performs exactly 3 attempts, sleeping the constant
retry_delay (5 seconds) between consecutive attempts, and returns a null
result to the caller rather than raising. -/
theorem download_direct_all_transient (outcomes : Nat → DownloadManager.AttemptOutcome)
    (filepath : Str)
    (h : ∀ i, i < DownloadManager.max_retries → outcomes i = .netError) :
    DownloadManager.download_direct outcomes filepath
      = ⟨none, DownloadManager.max_retries,
          List.replicate (DownloadManager.max_retries - 1) DownloadManager.retry_delay⟩ := by
  have h0 := h 0 (by decide)
  have h1 := h 1 (by decide)
  have h2 := h 2 (by decide)
  simp [DownloadManager.download_direct, DownloadManager.download_direct_go,
    DownloadManager.max_retries, DownloadManager.retry_delay, h0, h1, h2,
    List.replicate]

/-- C1 witness: the amended theorem applied to the run in which every
attempt fails with a transient network error. -/
theorem download_direct_all_transient_witness :
    DownloadManager.download_direct (fun _ => .netError) (("f.mp4").toList)
      = ⟨none, 3, [5, 5]⟩ :=
  download_direct_all_transient (fun _ => .netError) (("f.mp4").toList)
    (fun _ _ => rfl)

/-- C2 counterexample: the URL https://example.com/video.mp4.html is routed
to the direct-stream strategy by the code, although its path ends with
.html, not with a recognized video extension, and it matches no platform
domain; the claim says such a URL uses the platform-extractor strategy. -/
theorem strategy_substring_counterexample :
    DownloadManager.select_strategy (("https://example.com/video.mp4.html").toList)
      = .direct
  ∧ DownloadManager.claim_is_direct (("https://example.com/video.mp4.html").toList)
      = false
  ∧ DownloadManager.is_youtube_url (("https://example.com/video.mp4.html").toList)
      = false := by
  decide

/-- C2 amended: download_video selects the direct-stream strategy exactly
when no known platform domain occurs as a substring of the lowercased URL
and some recognized video file extension (.mp4, .mkv, .avi, .mov, .wmv,
.flv, .webm) occurs as a substring anywhere in the lowercased URL, not only
at the end of its path; platform URLs and all remaining URLs use the
platform-extractor strategy. -/
theorem select_strategy_direct_iff (url : Str) :
    DownloadManager.select_strategy url = .direct
      ↔ (DownloadManager.is_youtube_url url = false ∧
          DownloadManager.video_extensions.any
            (fun e => contains_sub (DownloadManager.url_lower url) e) = true) := by
  have hdef : DownloadManager.is_direct_video_url url
      = DownloadManager.video_extensions.any
          (fun e => contains_sub (DownloadManager.url_lower url) e) := rfl
  rw [← hdef]
  unfold DownloadManager.select_strategy
  cases hy : DownloadManager.is_youtube_url url <;>
    cases hd : DownloadManager.is_direct_video_url url <;>
      simp [hy, hd]

/-- C3: in every reachable state of the download admission semaphore at most
3 jobs are active, and a waiting call in a state with a free slot can take
the slot by a step of the system; a waiting call is never failed, since no
transition discards it. -/
theorem download_semaphore_bound (s : DownloadManager.SemState)
    (h : DownloadManager.SemReachable s) :
    s.active ≤ 3 ∧
    (0 < s.waiting → s.active < 3 →
      ∃ t, DownloadManager.SemStep s t
        ∧ t.active = s.active + 1 ∧ t.waiting = s.waiting - 1) := by
  constructor
  · induction h with
    | init => decide
    | step hr hstep ih =>
      cases hstep with
      | submit =>
        show _ ≤ 3
        exact ih
      | acquire hw ha =>
        show _ + 1 ≤ 3
        omega
      | release ha =>
        show _ - 1 ≤ 3
        omega
  · intro hw ha
    exact ⟨⟨s.waiting - 1, s.active + 1⟩,
      DownloadManager.SemStep.acquire s hw ha, rfl, rfl⟩

/-- C3 witness: the theorem applied to the reachable state with one call
waiting and no active downloads. -/
theorem download_semaphore_bound_witness :
    DownloadManager.SemState.active ⟨1, 0⟩ ≤ 3 ∧
    ∃ t, DownloadManager.SemStep ⟨1, 0⟩ t ∧ t.active = 1 ∧ t.waiting = 0 := by
  have hr : DownloadManager.SemReachable ⟨1, 0⟩ :=
    DownloadManager.SemReachable.step DownloadManager.SemReachable.init
      (DownloadManager.SemStep.submit ⟨0, 0⟩)
  have h := download_semaphore_bound ⟨1, 0⟩ hr
  exact ⟨h.1, h.2 (by decide) (by decide)⟩

/-- C4: for every upload of a video file for which a thumbnail was
generated, the thumbnail file is absent after the relay attempt whatever
the per-attempt outcomes were (success, falsy message, transient network
error, other error), and running the thumbnail deletion again on the
already-removed file is a no-op returning False on the unchanged file
system, without raising. -/
theorem upload_thumbnail_cleanup (fs : FS) (filePath p : Str)
    (maxFileSize : Nat) (outcomes : Nat → FileManager.SendOutcome)
    (hEx : fs_exists fs filePath = true)
    (hSize : fs_size fs filePath ≤ maxFileSize)
    (hNz : fs_size fs filePath ≠ 0)
    (hVid : Utils.is_video_file filePath = true) :
    fs_exists (FileManager.upload_to_telegram fs filePath maxFileSize (some p)
      outcomes).fs p = false
  ∧ Utils.safe_delete_file (FileManager.upload_to_telegram fs filePath
      maxFileSize (some p) outcomes).fs p
    = (false, (FileManager.upload_to_telegram fs filePath maxFileSize (some p)
        outcomes).fs) := by
  have h1 : fs_exists (FileManager.upload_to_telegram fs filePath maxFileSize
      (some p) outcomes).fs p = false := by
    rw [upload_to_telegram_video_eq fs filePath p maxFileSize outcomes hEx hSize hNz hVid]
    exact upload_attempts_fs_no_thumb outcomes p _ _ _ _ _ _ _
      (Or.inr (by decide))
  exact ⟨h1, by simp [Utils.safe_delete_file, h1]⟩

/-- C4 witness: the theorem applied to a one-file system with an upload that
succeeds on the first attempt. -/
theorem upload_thumbnail_cleanup_witness :
    fs_exists (FileManager.upload_to_telegram [(("a.mp4").toList, 10)]
      (("a.mp4").toList) 100 (some (("t.jpg").toList)) (fun _ => .ok 7)).fs
      (("t.jpg").toList) = false
  ∧ Utils.safe_delete_file (FileManager.upload_to_telegram
      [(("a.mp4").toList, 10)] (("a.mp4").toList) 100 (some (("t.jpg").toList))
      (fun _ => .ok 7)).fs (("t.jpg").toList)
    = (false, (FileManager.upload_to_telegram [(("a.mp4").toList, 10)]
        (("a.mp4").toList) 100 (some (("t.jpg").toList)) (fun _ => .ok 7)).fs) :=
  upload_thumbnail_cleanup [(("a.mp4").toList, 10)] (("a.mp4").toList)
    (("t.jpg").toList) 100 (fun _ => .ok 7)
    (by decide) (by decide) (by decide) (by decide)

/-- C5: for every file path that does not exist, is empty, or exceeds the
configured maximum size, upload_to_telegram returns None at once: no
thumbnail generation is invoked, no send attempt is made, and the file
system is untouched. -/
theorem upload_precondition_fail_fast (fs : FS) (filePath : Str)
    (maxFileSize : Nat) (thumbGen : Option Str)
    (outcomes : Nat → FileManager.SendOutcome)
    (h : fs_exists fs filePath = false ∨ fs_size fs filePath = 0
      ∨ maxFileSize < fs_size fs filePath) :
    FileManager.upload_to_telegram fs filePath maxFileSize thumbGen outcomes
      = ⟨none, fs, false, 0, [], []⟩ := by
  rcases h with h | h | h
  · simp [FileManager.upload_to_telegram, h]
  · cases hex : fs_exists fs filePath
    · simp [FileManager.upload_to_telegram, hex]
    · simp [FileManager.upload_to_telegram, hex, h]
  · cases hex : fs_exists fs filePath
    · simp [FileManager.upload_to_telegram, hex]
    · simp [FileManager.upload_to_telegram, hex, h]

/-- C5 witness: the theorem applied to an empty file system, in which the
file does not exist. -/
theorem upload_precondition_fail_fast_witness :
    FileManager.upload_to_telegram [] (("a.mp4").toList) 100 none
      (fun _ => .ok 7) = ⟨none, [], false, 0, [], []⟩ :=
  upload_precondition_fail_fast [] (("a.mp4").toList) 100 none (fun _ => .ok 7)
    (Or.inl (by decide))

/-- C6: each is_allowed check prunes the stored timestamps of the identity
to those inside the trailing window, admits exactly when the pruned count is
strictly below maxRequests, and records the new timestamp only on
admission; in the scenario with maxRequests 10 and windowSeconds 60, ten
calls inside the window are admitted, the eleventh is denied, and a call
after the window has elapsed is admitted again. -/
theorem rate_limiter_admission (userRequests : List Int) (now : Int)
    (maxRequests windowSeconds : Nat) :
    RateLimiter.is_allowed userRequests now maxRequests windowSeconds
      = (if (userRequests.filter
              (fun t => now - (windowSeconds : Int) < t)).length < maxRequests
          then (true, userRequests.filter
              (fun t => now - (windowSeconds : Int) < t) ++ [now])
          else (false, userRequests.filter
              (fun t => now - (windowSeconds : Int) < t)))
  ∧ RateLimiter.run_calls RateLimiter.scenario_times 10 60
      = (List.replicate 10 true ++ [false, true], [70]) := by
  constructor
  · simp only [RateLimiter.is_allowed]
    by_cases hc : maxRequests ≤ (userRequests.filter
        (fun t => now - (windowSeconds : Int) < t)).length
    · rw [if_pos hc, if_neg (by omega)]
    · rw [if_neg hc, if_pos (by omega)]
  · decide

/-- C7 counterexample: for the 1080p tier with available encoding heights
1440 and 2160, none of which qualifies as at or below 1080, the code format
best[height<=1080]/best selects the highest encoding 2160, while the
claimed policy of falling back to the lowest available encoding would
select 1440. -/
theorem ytdlp_fallback_counterexample :
    DownloadManager.select_format (DownloadManager.get_ytdlp_format "1080p")
      [1440, 2160] = some 2160
  ∧ DownloadManager.claim_select 1080 [1440, 2160] = some 1440
  ∧ DownloadManager.select_format (DownloadManager.get_ytdlp_format "1080p")
      [1440, 2160] ≠ DownloadManager.claim_select 1080 [1440, 2160] := by
  decide

/-- C7 amended: for every requested tier the format selection first picks
the best available encoding at or below the tier height; when none
qualifies the fallback depends on the tier: 480p falls back to the lowest
available encoding, 720p falls back to the best encoding at or below 1080
and only then to the lowest, and 1080p, 1440p and 4k fall back to the
highest available encoding. -/
theorem ytdlp_format_selection (heights : List Nat) :
    DownloadManager.select_format (DownloadManager.get_ytdlp_format "480p") heights
      = (match DownloadManager.best_at_most heights 480 with
         | some h => some h
         | none => DownloadManager.lowest heights)
  ∧ DownloadManager.select_format (DownloadManager.get_ytdlp_format "720p") heights
      = (match DownloadManager.best_at_most heights 720 with
         | some h => some h
         | none =>
           match DownloadManager.best_at_most heights 1080 with
           | some h => some h
           | none => DownloadManager.lowest heights)
  ∧ DownloadManager.select_format (DownloadManager.get_ytdlp_format "1080p") heights
      = (match DownloadManager.best_at_most heights 1080 with
         | some h => some h
         | none => DownloadManager.highest heights)
  ∧ DownloadManager.select_format (DownloadManager.get_ytdlp_format "1440p") heights
      = (match DownloadManager.best_at_most heights 1440 with
         | some h => some h
         | none => DownloadManager.highest heights)
  ∧ DownloadManager.select_format (DownloadManager.get_ytdlp_format "4k") heights
      = (match DownloadManager.best_at_most heights 2160 with
         | some h => some h
         | none => DownloadManager.highest heights) := by
  refine ⟨?_, ?_, ?_, ?_, ?_⟩
  · show DownloadManager.select_format
      [.bestAtMost 480, .worst] heights = _
    simp only [DownloadManager.select_format, DownloadManager.selectAlt,
      DownloadManager.best_at_most, DownloadManager.lowest]
    cases hb : (List.filter (fun x => decide (x ≤ 480)) heights).max? with
    | some h => rfl
    | none => cases hm : heights.min? <;> rfl
  · show DownloadManager.select_format
      [.bestAtMost 720, .bestAtMost 1080, .worst] heights = _
    simp only [DownloadManager.select_format, DownloadManager.selectAlt,
      DownloadManager.best_at_most, DownloadManager.lowest]
    cases hb : (List.filter (fun x => decide (x ≤ 720)) heights).max? with
    | some h => rfl
    | none =>
      cases hc : (List.filter (fun x => decide (x ≤ 1080)) heights).max? with
      | some h => rfl
      | none => cases hm : heights.min? <;> rfl
  · show DownloadManager.select_format
      [.bestAtMost 1080, .best] heights = _
    simp only [DownloadManager.select_format, DownloadManager.selectAlt,
      DownloadManager.best_at_most, DownloadManager.highest]
    cases hb : (List.filter (fun x => decide (x ≤ 1080)) heights).max? with
    | some h => rfl
    | none => cases hm : heights.max? <;> rfl
  · show DownloadManager.select_format
      [.bestAtMost 1440, .best] heights = _
    simp only [DownloadManager.select_format, DownloadManager.selectAlt,
      DownloadManager.best_at_most, DownloadManager.highest]
    cases hb : (List.filter (fun x => decide (x ≤ 1440)) heights).max? with
    | some h => rfl
    | none => cases hm : heights.max? <;> rfl
  · show DownloadManager.select_format
      [.bestAtMost 2160, .best] heights = _
    simp only [DownloadManager.select_format, DownloadManager.selectAlt,
      DownloadManager.best_at_most, DownloadManager.highest]
    cases hb : (List.filter (fun x => decide (x ≤ 2160)) heights).max? with
    | some h => rfl
    | none => cases hm : heights.max? <;> rfl

/-- C8: when the external probe fails and the in-process decode fails (the
capture raises or does not open), get_video_duration returns 0 and
get_video_dimensions returns (0, 0); both translated functions are total,
every exception being caught inside them, so neither raises to its
caller. -/
theorem media_metadata_defaults (probe : Except Unit Int)
    (durDecode dimDecode : Except Unit (Option (Nat × Nat)))
    (hProbe : probe = .error ())
    (hDur : durDecode = .error () ∨ durDecode = .ok none)
    (hDim : dimDecode = .error () ∨ dimDecode = .ok none) :
    FileManager.get_video_duration probe durDecode = 0
  ∧ FileManager.get_video_dimensions dimDecode = (0, 0) := by
  subst hProbe
  constructor
  · rcases hDur with h | h <;>
      simp [h, FileManager.get_video_duration, FileManager.get_duration_ffmpeg,
        FileManager.get_duration_opencv]
  · rcases hDim with h | h <;> simp [h, FileManager.get_video_dimensions]

/-- C8 witness: the theorem applied to a probe error, a raising duration
decode and a dimension capture that does not open. -/
theorem media_metadata_defaults_witness :
    FileManager.get_video_duration (.error ()) (.error ()) = 0
  ∧ FileManager.get_video_dimensions (.ok none) = (0, 0) :=
  media_metadata_defaults (.error ()) (.error ()) (.ok none) rfl
    (Or.inl rfl) (Or.inr rfl)

/-- C9: generate_deeplink produces a link whose start parameter is the
unique code prefixed with v_, parse_deeplink applied to that start
parameter strips the prefix and returns exactly the code, and
parse_deeplink returns None on any parameter that does not start with
v_. -/
theorem deeplink_round_trip (uniqueCode botUsername : Str) :
    Utils.generate_deeplink uniqueCode botUsername
      = ("https://t.me/").toList ++ botUsername ++ ("?start=").toList
          ++ ('v' :: '_' :: uniqueCode)
  ∧ Utils.parse_deeplink ('v' :: '_' :: uniqueCode) = some uniqueCode
  ∧ ∀ p : Str, ("v_").toList.isPrefixOf p = false →
      Utils.parse_deeplink p = none := by
  refine ⟨?_, ?_, ?_⟩
  · simp only [Utils.generate_deeplink, List.append_assoc]
    rfl
  · simp [Utils.parse_deeplink, List.isPrefixOf]
  · intro p hp
    simp only [Utils.parse_deeplink, hp, Bool.and_false, Bool.false_eq_true,
      if_false]

/-- C9 witness: the theorem applied to a concrete code, bot name and
non-matching parameter. -/
theorem deeplink_round_trip_witness :
    Utils.parse_deeplink ('v' :: '_' :: ("AB12CD34E").toList)
      = some (("AB12CD34E").toList)
  ∧ Utils.parse_deeplink (("start").toList) = none :=
  ⟨(deeplink_round_trip (("AB12CD34E").toList) (("mybot").toList)).2.1,
   (deeplink_round_trip (("AB12CD34E").toList) (("mybot").toList)).2.2
     (("start").toList) (by decide)⟩

/-- C10: when the first send attempt of a video upload with a generated
thumbnail fails with a transient network error and is retried, the
per-attempt cleanup has already deleted the thumbnail file, so every
attempt after the first (there are at least two) is transmitted without a
thumbnail attached. -/
theorem upload_retry_no_thumbnail (fs : FS) (filePath p : Str)
    (maxFileSize : Nat) (outcomes : Nat → FileManager.SendOutcome)
    (hEx : fs_exists fs filePath = true)
    (hSize : fs_size fs filePath ≤ maxFileSize)
    (hNz : fs_size fs filePath ≠ 0)
    (hVid : Utils.is_video_file filePath = true)
    (h0 : outcomes 0 = .netError) :
    2 ≤ (FileManager.upload_to_telegram fs filePath maxFileSize (some p)
          outcomes).thumbAttached.length
  ∧ ((FileManager.upload_to_telegram fs filePath maxFileSize (some p)
        outcomes).thumbAttached.drop 1).all (fun b => !b) = true := by
  rw [upload_to_telegram_video_eq fs filePath p maxFileSize outcomes hEx hSize hNz hVid]
  have hstep : FileManager.upload_attempts outcomes (some p) (fs_add fs p 1) 0
      FileManager.max_retries 0 [] [] true
      = FileManager.upload_attempts outcomes (some p)
          (FileManager.delete_thumb (fs_add fs p 1) (some p)) 1 2 1
          [FileManager.thumb_attached_now (fs_add fs p 1) (some p)]
          [FileManager.retry_delay * 1] true := by
    simp [FileManager.upload_attempts, FileManager.max_retries, h0]
  rw [hstep]
  obtain ⟨rest, hr, hall, hlen⟩ :=
    upload_attempts_attached_false outcomes p 2
      (FileManager.delete_thumb (fs_add fs p 1) (some p)) 1 1
      [FileManager.thumb_attached_now (fs_add fs p 1) (some p)]
      [FileManager.retry_delay * 1] true (fs_exists_delete_thumb (fs_add fs p 1) p)
  rw [hr]
  constructor
  · have := hlen (by decide)
    simp
    omega
  · simpa using hall

/-- C10 witness: the theorem applied to a one-file system with every send
attempt failing with a transient network error. -/
theorem upload_retry_no_thumbnail_witness :
    2 ≤ (FileManager.upload_to_telegram [(("a.mp4").toList, 10)]
          (("a.mp4").toList) 100 (some (("t.jpg").toList))
          (fun _ => .netError)).thumbAttached.length
  ∧ ((FileManager.upload_to_telegram [(("a.mp4").toList, 10)]
        (("a.mp4").toList) 100 (some (("t.jpg").toList))
        (fun _ => .netError)).thumbAttached.drop 1).all (fun b => !b) = true :=
  upload_retry_no_thumbnail [(("a.mp4").toList, 10)] (("a.mp4").toList)
    (("t.jpg").toList) 100 (fun _ => .netError)
    (by decide) (by decide) (by decide) (by decide) rfl

end MTMove
